import Mathlib

set_option maxHeartbeats 1000000
set_option maxRecDepth 8000

/-!
Shallow embedding of the fitness-tracker repository (a Next.js client form in
src/app/page.tsx and the calorie-estimation POST gateway in src/unnamed/part_000)
for checking the natural-language specification against the code.

JavaScript numbers are modelled as `Rat` (exact rational arithmetic; the
floating-point representation error of IEEE doubles is idealised away, and the
non-finite values NaN/Infinity are folded into `Option` where the code can
produce them). Strings are Lean `String`s over their `data` character lists.
-/

/-! ## JavaScript primitive string helpers -/

/-- Whitespace characters as matched by the JS regex class and by trim for the
ASCII range used in this app (space, tab, newline, carriage return, vertical
tab, form feed). -/
def isWsChar (c : Char) : Bool :=
  c == ' ' || c == '\t' || c == '\n' || c == '\r' || c == '\x0b' || c == '\x0c'

def isDigitChar (c : Char) : Bool := '0' ≤ c && c ≤ '9'

/-- Trim whitespace from both ends of a character list (JS String.prototype.trim). -/
def jsTrimL (l : List Char) : List Char :=
  ((l.dropWhile isWsChar).reverse.dropWhile isWsChar).reverse

def jsTrim (s : String) : String := String.mk (jsTrimL s.data)

/-- Lowercasing per JS toLowerCase on the ASCII range (Char.toLower is ASCII-only,
which covers every workout label the app compares against). -/
def lowerL (l : List Char) : List Char := l.map Char.toLower

def jsToLower (s : String) : String := String.mk (lowerL s.data)

/-- Remove all whitespace and hyphens: the composition of the two replace calls
in isPushUp (a global replace of whitespace runs, then of hyphens, by nothing). -/
def stripL (l : List Char) : List Char :=
  l.filter (fun c => !(isWsChar c || c == '-'))

def prefixMatches : List Char → List Char → Bool
  | [], _ => true
  | _ :: _, [] => false
  | p :: ps, c :: cs => p == c && prefixMatches ps cs

/-- JS String.prototype.startsWith. -/
def jsStartsWith (s p : String) : Bool := prefixMatches p.data s.data

def subMatches (p : List Char) : List Char → Bool
  | [] => p.isEmpty
  | c :: t => prefixMatches p (c :: t) || subMatches p t

/-- Substring containment (JS String.prototype.includes). -/
def strContains (s p : String) : Bool := subMatches p.data s.data

def digitsToNat (l : List Char) : Nat :=
  l.foldl (fun a c => a * 10 + (c.toNat - 48)) 0

/-- The first maximal run of decimal digits in a character list: the text
matched by the JS regex /\d+/, or none when the regex does not match. -/
def firstDigitRun : List Char → Option (List Char)
  | [] => none
  | c :: t =>
    if isDigitChar c then some (c :: t.takeWhile isDigitChar) else firstDigitRun t

def firstDigitRunStr (s : String) : Option String := (firstDigitRun s.data).map String.mk

/-! ## JavaScript numeric parsing and formatting -/

def pow10 (e : Int) : Rat :=
  if 0 ≤ e then ((10 : Rat) ^ e.toNat) else 1 / ((10 : Rat) ^ (-e).toNat)

/-- The value of an exponent suffix for parseFloat: a malformed exponent is
ignored (parseFloat("1e") = 1), matching the longest-valid-prefix rule. -/
def expPartVal (l : List Char) : Int :=
  let p : Int × List Char :=
    match l with
    | '-' :: t => (-1, t)
    | '+' :: t => (1, t)
    | _ => (1, l)
  let ds := p.2.takeWhile isDigitChar
  if ds.isEmpty then 0 else p.1 * (digitsToNat ds : Int)

/-- JS parseFloat on a character list: leading whitespace, optional sign,
digits with an optional fraction, an optional well-formed exponent; trailing
garbage is ignored; none models NaN (no digits). The literals "Infinity"/
"-Infinity", which parseFloat also accepts, are not modelled (no finite
rational denotes them); no input in this development uses them. -/
def jsParseFloatL (cs0 : List Char) : Option Rat :=
  let cs := cs0.dropWhile isWsChar
  let sp : Int × List Char :=
    match cs with
    | '-' :: t => (-1, t)
    | '+' :: t => (1, t)
    | _ => (1, cs)
  let ip := sp.2.takeWhile isDigitChar
  let r1 := sp.2.dropWhile isDigitChar
  let fr : List Char × List Char :=
    match r1 with
    | '.' :: t => (t.takeWhile isDigitChar, t.dropWhile isDigitChar)
    | _ => ([], r1)
  if ip.isEmpty && fr.1.isEmpty then none
  else
    let mant : Rat :=
      ((sp.1 * (digitsToNat (ip ++ fr.1) : Int) : Int) : Rat) / pow10 (fr.1.length : Int)
    let ex : Int :=
      match fr.2 with
      | 'e' :: t => expPartVal t
      | 'E' :: t => expPartVal t
      | _ => 0
    some (mant * pow10 ex)

def jsParseFloat (s : String) : Option Rat := jsParseFloatL s.data

/-- JS parseInt with no radix argument, for the decimal inputs this app feeds
it (a validated reps field, or a /\d+/ match). The hexadecimal "0x" prefix of
full parseInt is not modelled: no such string passes the client validation or
the digit-run regex that precede the two parseInt call sites. -/
def jsParseInt (s : String) : Option Int :=
  let cs := s.data.dropWhile isWsChar
  let sp : Int × List Char :=
    match cs with
    | '-' :: t => (-1, t)
    | '+' :: t => (1, t)
    | _ => (1, cs)
  let ds := sp.2.takeWhile isDigitChar
  if ds.isEmpty then none else some (sp.1 * (digitsToNat ds : Int))

/-- Exponent suffix under strict Number() coercion: the digits must be present
and must consume the rest of the string. -/
def strictExp (mant : Rat) (l : List Char) : Option Rat :=
  let sp : Int × List Char :=
    match l with
    | '-' :: t => (-1, t)
    | '+' :: t => (1, t)
    | _ => (1, l)
  let ds := sp.2.takeWhile isDigitChar
  let rest := sp.2.dropWhile isDigitChar
  if ds.isEmpty || !rest.isEmpty then none
  else some (mant * pow10 (sp.1 * (digitsToNat ds : Int)))

/-- JS Number() coercion of a string: trims, the empty string is 0, otherwise
the whole remaining text must be one numeric literal; none models NaN. The
"0x"/"0b"/"0o" and "Infinity" literal forms are not modelled (they never occur
in this app's data). -/
def jsStrToNumber (s : String) : Option Rat :=
  let l := jsTrimL s.data
  if l.isEmpty then some 0
  else
    let sp : Int × List Char :=
      match l with
      | '-' :: t => (-1, t)
      | '+' :: t => (1, t)
      | _ => (1, l)
    let ip := sp.2.takeWhile isDigitChar
    let r1 := sp.2.dropWhile isDigitChar
    let fr : List Char × List Char :=
      match r1 with
      | '.' :: t => (t.takeWhile isDigitChar, t.dropWhile isDigitChar)
      | _ => ([], r1)
    if ip.isEmpty && fr.1.isEmpty then none
    else
      let mant : Rat :=
        ((sp.1 * (digitsToNat (ip ++ fr.1) : Int) : Int) : Rat) / pow10 (fr.1.length : Int)
      match fr.2 with
      | [] => some mant
      | 'e' :: t => strictExp mant t
      | 'E' :: t => strictExp mant t
      | _ => none

/-- Floor of a rational (the denominator is positive, so euclidean division of
the numerator is the mathematical floor). -/
def ratFloor (q : Rat) : Int := Int.ediv q.num (q.den : Int)

/-- JS Math.round: round half toward positive infinity. -/
def jsRound (q : Rat) : Int := ratFloor (q + 1 / 2)

def intStr (i : Int) : String :=
  if i < 0 then "-" ++ Nat.repr i.natAbs else Nat.repr i.natAbs

def padZeros (k : Nat) (s : String) : String :=
  String.mk (List.replicate (k - s.data.length) '0') ++ s

/-- Best-effort rendering of a rational the way JS prints the number (exact for
integers and terminating decimals, which covers every number this app
interpolates into text; used only to build prompt text). -/
def ratToJSString (q : Rat) : String :=
  if q.den == 1 then intStr q.num
  else
    match (List.range 31).find? (fun k => 10 ^ k % q.den == 0) with
    | some k =>
      let scaled : Nat := q.num.natAbs * (10 ^ k / q.den)
      (if q.num < 0 then "-" else "")
        ++ Nat.repr (scaled / 10 ^ k) ++ "." ++ padZeros k (Nat.repr (scaled % 10 ^ k))
    | none => intStr q.num ++ "/" ++ Nat.repr q.den

/-- JS Number.prototype.toFixed(1): one decimal digit, ties rounded to the
larger candidate (toward positive infinity). -/
def jsToFixed1 (q : Rat) : String :=
  let n : Int := ratFloor (q * 10 + 1 / 2)
  (if n < 0 then "-" else "") ++ Nat.repr (n.natAbs / 10) ++ "." ++ Nat.repr (n.natAbs % 10)

/-! ## JSON values and strict JSON.parse -/

mutual

inductive Json where
  | jnull : Json
  | jbool : Bool → Json
  | jnum : Rat → Json
  | jstr : String → Json
  | jarr : JsonList → Json
  | jobj : JsonFields → Json

inductive JsonList where
  | nil : JsonList
  | cons : Json → JsonList → JsonList

inductive JsonFields where
  | fnil : JsonFields
  | fcons : String → Json → JsonFields → JsonFields

end

/-- Property lookup on a parsed object: JS keeps the last of duplicate keys. -/
def JsonFields.lookupLast : JsonFields → String → Option Json
  | .fnil, _ => none
  | .fcons k v t, key =>
    match JsonFields.lookupLast t key with
    | some r => some r
    | none => if k == key then some v else none

/-- JS property access `value.key`: a value only objects carry. Reading a
property of null/undefined throws a TypeError in JS; the gateway's catch block
turns any throw on this path into a 500 error response, which the embedding
reaches through the falsy-calories check instead, so only the error message
text differs for a bare `null` reply. -/
def jsonGetField : Json → String → Option Json
  | .jobj fs, k => fs.lookupLast k
  | _, _ => none

/-- JS truthiness of a JSON value (NaN cannot occur in a parsed Rat). -/
def jsTruthy : Json → Bool
  | .jnull => false
  | .jbool b => b
  | .jnum q => !(q == 0)
  | .jstr s => !(s == "")
  | .jarr _ => true
  | .jobj _ => true

/-- Truthiness of a possibly-absent (undefined) value. -/
def jsTruthyOpt : Option Json → Bool
  | none => false
  | some v => jsTruthy v

mutual

/-- Best-effort JS String() of a JSON value, used only where the code
interpolates a value into template text. -/
def jsDisplay : Json → String
  | .jnull => "null"
  | .jbool b => if b then "true" else "false"
  | .jnum q => ratToJSString q
  | .jstr s => s
  | .jarr l => jsDisplayList l
  | .jobj _ => "[object Object]"

def jsDisplayList : JsonList → String
  | .nil => ""
  | .cons v .nil => jsDisplay v
  | .cons v t => jsDisplay v ++ "," ++ jsDisplayList t

end

mutual

/-- JS Number() coercion of a JSON value; none models NaN. -/
def jsonToNumber : Json → Option Rat
  | .jnull => some 0
  | .jbool b => some (if b then 1 else 0)
  | .jnum q => some q
  | .jstr s => jsStrToNumber s
  | .jarr l => jsonListToNumber l
  | .jobj _ => none

def jsonListToNumber : JsonList → Option Rat
  | .nil => some 0
  | .cons v .nil => jsonToNumber v
  | .cons _ (.cons _ _) => none

end

/-- JS parseFloat applied to a JSON value (parseFloat stringifies its argument
first; numbers round-trip, non-numeric strings and null/booleans/objects give
NaN). Arrays, whose stringification can parse, are simplified to NaN: no code
path in this app feeds an array to parseFloat. -/
def jsonParseFloat : Json → Option Rat
  | .jnum q => some q
  | .jstr s => jsParseFloat s
  | _ => none

def dropWs (l : List Char) : List Char :=
  l.dropWhile (fun c => c == ' ' || c == '\t' || c == '\n' || c == '\r')

def hexVal (c : Char) : Option Nat :=
  if isDigitChar c then some (c.toNat - 48)
  else if 'a' ≤ c && c ≤ 'f' then some (c.toNat - 87)
  else if 'A' ≤ c && c ≤ 'F' then some (c.toNat - 55)
  else none

def escChar : Char → Option Char
  | '\x22' => some '\x22'
  | '\x5c' => some '\x5c'
  | '/' => some '/'
  | 'b' => some '\x08'
  | 'f' => some '\x0c'
  | 'n' => some '\n'
  | 'r' => some '\x0d'
  | 't' => some '\t'
  | _ => none

/-- The characters of a JSON string after its opening quote, and the remainder
after the closing quote. Unescaped control characters are rejected; \uXXXX
takes the code point directly (surrogate pairing is not modelled; no input in
this development uses it). -/
def pStrChars : List Char → Option (List Char × List Char)
  | [] => none
  | '\x22' :: r => some ([], r)
  | '\x5c' :: 'u' :: h1 :: h2 :: h3 :: h4 :: r =>
    match hexVal h1, hexVal h2, hexVal h3, hexVal h4 with
    | some a, some b, some c, some d =>
      (pStrChars r).map (fun p => (Char.ofNat (((a * 16 + b) * 16 + c) * 16 + d) :: p.1, p.2))
    | _, _, _, _ => none
  | '\x5c' :: e :: r =>
    match escChar e with
    | some c => (pStrChars r).map (fun p => (c :: p.1, p.2))
    | none => none
  | c :: r =>
    if c.toNat < 32 then none
    else (pStrChars r).map (fun p => (c :: p.1, p.2))

/-- A JSON number after its integer digits: optional fraction and exponent,
per the strict JSON grammar (a fraction needs a digit, an exponent needs one). -/
def pNumAfterInt (neg : Bool) (ip : List Char) (r : List Char) : Option (Json × List Char) :=
  let fr : List Char × List Char :=
    match r with
    | '.' :: t => (t.takeWhile isDigitChar, t.dropWhile isDigitChar)
    | _ => ([], r)
  if (match r with | '.' :: _ => fr.1.isEmpty | _ => false) then none
  else
    let base : Rat :=
      (((if neg then -1 else 1) * (digitsToNat (ip ++ fr.1) : Int) : Int) : Rat)
        / pow10 (fr.1.length : Int)
    match fr.2 with
    | 'e' :: t3 | 'E' :: t3 =>
      let sp : Int × List Char :=
        match t3 with
        | '-' :: u => (-1, u)
        | '+' :: u => (1, u)
        | _ => (1, t3)
      let eds := sp.2.takeWhile isDigitChar
      if eds.isEmpty then none
      else some (.jnum (base * pow10 (sp.1 * (digitsToNat eds : Int))), sp.2.dropWhile isDigitChar)
    | _ => some (.jnum base, fr.2)

/-- A JSON number token: optional minus, then either a single 0 or a nonzero
digit followed by digits (strict JSON rejects leading zeros and a leading +). -/
def pNumber (cs : List Char) : Option (Json × List Char) :=
  let sp : Bool × List Char :=
    match cs with
    | '-' :: t => (true, t)
    | _ => (false, cs)
  match sp.2 with
  | [] => none
  | c :: t =>
    if c == '0' then
      match t with
      | d :: _ => if isDigitChar d then none else pNumAfterInt sp.1 ['0'] t
      | [] => pNumAfterInt sp.1 ['0'] []
    else if isDigitChar c then
      pNumAfterInt sp.1 (c :: t.takeWhile isDigitChar) (t.dropWhile isDigitChar)
    else none

mutual

/-- One JSON value and the remainder. Fuelled recursive descent: the fuel
jsonParse supplies strictly exceeds the number of parser steps any input of its
length can need, so running out of fuel never decides a parse that strict
JSON.parse would accept. -/
def pValue : Nat → List Char → Option (Json × List Char)
  | 0, _ => none
  | Nat.succ fuel, cs =>
    match cs with
    | '\x7b' :: t =>
      (match dropWs t with
       | '\x7d' :: r => some (.jobj .fnil, r)
       | t1 => (pMembers fuel t1).map (fun p => (.jobj p.1, p.2)))
    | '[' :: t =>
      (match dropWs t with
       | ']' :: r => some (.jarr .nil, r)
       | t1 => (pElems fuel t1).map (fun p => (.jarr p.1, p.2)))
    | '\x22' :: t => (pStrChars t).map (fun p => (.jstr (String.mk p.1), p.2))
    | 't' :: 'r' :: 'u' :: 'e' :: r => some (.jbool true, r)
    | 'f' :: 'a' :: 'l' :: 's' :: 'e' :: r => some (.jbool false, r)
    | 'n' :: 'u' :: 'l' :: 'l' :: r => some (.jnull, r)
    | _ => pNumber cs

def pMembers : Nat → List Char → Option (JsonFields × List Char)
  | 0, _ => none
  | Nat.succ fuel, cs =>
    match cs with
    | '\x22' :: t =>
      (match pStrChars t with
       | none => none
       | some (kcs, r1) =>
         match dropWs r1 with
         | ':' :: r2 =>
           (match pValue fuel (dropWs r2) with
            | none => none
            | some (v, r3) =>
              match dropWs r3 with
              | ',' :: r4 =>
                (pMembers fuel (dropWs r4)).map
                  (fun p => (.fcons (String.mk kcs) v p.1, p.2))
              | '\x7d' :: r4 => some (.fcons (String.mk kcs) v .fnil, r4)
              | _ => none)
         | _ => none)
    | _ => none

def pElems : Nat → List Char → Option (JsonList × List Char)
  | 0, _ => none
  | Nat.succ fuel, cs =>
    match pValue fuel cs with
    | none => none
    | some (v, r1) =>
      match dropWs r1 with
      | ',' :: r2 => (pElems fuel (dropWs r2)).map (fun p => (.cons v p.1, p.2))
      | ']' :: r2 => some (.cons v .nil, r2)
      | _ => none

end

/-- Strict JSON.parse: one value, surrounding whitespace allowed, nothing after. -/
def jsonParse (s : String) : Option Json :=
  match pValue (s.data.length * 8 + 64) (dropWs s.data) with
  | some (v, r) => if (dropWs r).isEmpty then some v else none
  | none => none

/-! ## Client form controller (src/app/page.tsx) -/

/-- The client form fields handleSubmit reads (all text inputs). -/
structure FormState where
  workoutType : String
  duration : String
  reps : String
  runningPace : String
  weight : String
  weightUnit : String
deriving DecidableEq

/-- The JSON body the client builds for fetch: a field is none exactly when
its key is absent from the object literal. -/
structure ClientReq where
  workoutType : String
  duration : Option Rat
  reps : Option Int
  runningPace : Option String
  weight : Option String
  weightUnit : Option String
deriving DecidableEq

/-- Outcome of handleSubmit up to the network boundary: either a blocking
alert (validation failure, no request sent) or the request body issued. -/
inductive SubmitOutcome where
  | alerted : String → SubmitOutcome
  | request : ClientReq → SubmitOutcome
deriving DecidableEq

def SubmitOutcome.isRequest : SubmitOutcome → Bool
  | .alerted _ => false
  | .request _ => true

/-- isPushUp from page.tsx: falsy/whitespace-only strings are false, otherwise
the trimmed, lowercased string with whitespace and hyphens removed is compared
to "pushup"/"pushups" or tested for the prefix "pushup". The try/catch wrapper
is dead code here: nothing in the body throws. -/
def isPushUp (w : String) : Bool :=
  if w == "" then false
  else
    let t := jsTrimL w.data
    if t.isEmpty then false
    else
      let n := String.mk (stripL (lowerL t))
      n == "pushup" || n == "pushups" || jsStartsWith n "pushup"

/-- The normalisation isPushUp applies to the workout-type string (spec 4.1:
lowercased, whitespace and hyphens stripped). -/
def normalizeWorkout (s : String) : String :=
  String.mk (stripL (lowerL (jsTrimL s.data)))

/-- The client's running test: trimmed workout type lowercased equals "run" or
"running" (here the argument is already trimmed by the caller). -/
def isRunningStr (wt : String) : Bool :=
  jsToLower wt == "run" || jsToLower wt == "running"

/-- The request body handleSubmit builds once validation passed: trimmed
workout type; reps (parseInt) in push-up mode, otherwise duration (parseFloat);
runningPace only for a running workout with a non-blank pace; weight and
weightUnit only with a non-blank weight. -/
def mkReq (st : FormState) (pushup : Bool) : ClientReq :=
  let wt := jsTrim st.workoutType
  let running := isRunningStr wt
  ⟨wt,
   if pushup then none else jsParseFloat st.duration,
   if pushup then jsParseInt st.reps else none,
   if running && !(jsTrim st.runningPace == "") then some (jsTrim st.runningPace) else none,
   if !(jsTrim st.weight == "") then some (jsTrim st.weight) else none,
   if !(jsTrim st.weight == "") then some st.weightUnit else none⟩

/-- handleSubmit from page.tsx up to the fetch call: the guard chain in source
order, alerting and returning on the first failure, else issuing the request. -/
def clientSubmit (st : FormState) : SubmitOutcome :=
  if jsTrim st.workoutType == "" then .alerted "Please fill in the workout type"
  else if isPushUp st.workoutType then
    if jsTrim st.reps == "" then .alerted "Please fill in the number of reps"
    else
      match jsParseFloat st.reps with
      | none => .alerted "Please enter a valid number of reps (must be a positive whole number)"
      | some r =>
        if r ≤ 0 ∨ ¬ r.den = 1 then
          .alerted "Please enter a valid number of reps (must be a positive whole number)"
        else .request (mkReq st true)
  else
    if jsTrim st.duration == "" then .alerted "Please fill in the duration"
    else
      match jsParseFloat st.duration with
      | none => .alerted "Please enter a valid duration (in minutes)"
      | some d =>
        if d ≤ 0 then .alerted "Please enter a valid duration (in minutes)"
        else .request (mkReq st false)

/-- A WorkoutHistory entry as page.tsx stores it; duration and reps are
optional so that which of the two a created entry populates is expressible. -/
structure WorkoutEntry where
  id : String
  workoutType : String
  duration : Option Rat
  reps : Option Int
  calories : Int
  explanation : Option String
  timestamp : String
deriving DecidableEq

/-- deleteWorkout from page.tsx: behind the confirm gate, filter the list by
id; persist the remainder when non-empty, otherwise remove the stored record.
Returns (new in-memory list, new persisted record). -/
def deleteWorkout (confirmed : Bool) (hist : List WorkoutEntry)
    (persisted : Option (List WorkoutEntry)) (wid : String) :
    List WorkoutEntry × Option (List WorkoutEntry) :=
  if confirmed then
    let updated := hist.filter (fun w => w.id != wid)
    (updated, if updated.length > 0 then some updated else none)
  else (hist, persisted)

/-! ## Calorie-estimation gateway (src/unnamed/part_000) -/

/-- The fields POST destructures from the request body; none is an absent key. -/
structure GBody where
  workoutType : Option Json
  duration : Option Json
  reps : Option Json
  runningPace : Option Json
  weight : Option Json
  weightUnit : Option Json

/-- The client request as the gateway receives it (JSON.stringify drops no key
the client put in the object; numbers arrive as numbers, strings as strings). -/
def toGBody (r : ClientReq) : GBody :=
  ⟨some (.jstr r.workoutType),
   r.duration.map .jnum,
   r.reps.map (fun n => .jnum (n : Rat)),
   r.runningPace.map .jstr,
   r.weight.map .jstr,
   r.weightUnit.map .jstr⟩

/-- A gateway response: success carries calories, explanation, the echoed
workoutType and the parsed duration (HTTP 200); failure carries the status and
the error message. -/
inductive GatewayResult where
  | success : Int → Json → Json → Rat → GatewayResult
  | failure : Nat → String → GatewayResult

def GatewayResult.status : GatewayResult → Nat
  | .success _ _ _ _ => 200
  | .failure s _ => s

def GatewayResult.errMsg : GatewayResult → Option String
  | .failure _ m => some m
  | .success _ _ _ _ => none

def GatewayResult.caloriesOut : GatewayResult → Option Int
  | .success c _ _ _ => some c
  | .failure _ _ => none

def GatewayResult.explanationOut : GatewayResult → Option String
  | .success _ (.jstr s) _ _ => some s
  | _ => none

def GatewayResult.isSuccess : GatewayResult → Bool
  | .success _ _ _ _ => true
  | .failure _ _ => false

/-- The intermediate `result` object of the reply-handling code: its calories
and explanation properties (absent = undefined). -/
structure LLMRes where
  calories : Option Json
  explanation : Option Json

/-- Reply handling: strict JSON.parse, else the /\d+/ fallback building
calories from the first digit run with the raw text as explanation, else
failure (none). -/
def parseReply (content : String) : Option LLMRes :=
  match jsonParse content with
  | some j => some ⟨jsonGetField j "calories", jsonGetField j "explanation"⟩
  | none =>
    match firstDigitRun content.data with
    | some ds => some ⟨some (.jnum ((digitsToNat ds : Int) : Rat)), some (.jstr content)⟩
    | none => none

def defaultExplanation : Json :=
  .jstr "Calories calculated based on workout type and duration."

/-- The response explanation: the reply's explanation when truthy, else the
default text. -/
def explanationFrom (e : Option Json) : Json :=
  match e with
  | some v => if jsTruthy v then v else defaultExplanation
  | none => defaultExplanation

/-- Validation and normalisation of the parsed result: a falsy or
non-numeric calories value is an invalid calculation (500); otherwise round
and respond 200. -/
def finishResult (wt : Json) (d : Rat) (r : LLMRes) : GatewayResult :=
  if !(jsTruthyOpt r.calories) then .failure 500 "Invalid calorie calculation from OpenAI"
  else
    match (match r.calories with | some v => jsonToNumber v | none => none) with
    | none => .failure 500 "Invalid calorie calculation from OpenAI"
    | some q => .success (jsRound q) (explanationFrom r.explanation) wt d

/-- The two credential checks: a falsy (unset or empty) key is a 500
configuration error; a key without the "sk-" prefix is a 400. -/
def keyError (k : Option String) : Option GatewayResult :=
  match k with
  | none =>
    some (.failure 500 "OpenAI API key is not configured. Please set OPENAI_API_KEY in your environment variables.")
  | some s =>
    if s == "" then
      some (.failure 500 "OpenAI API key is not configured. Please set OPENAI_API_KEY in your environment variables.")
    else if !(jsStartsWith s "sk-") then
      some (.failure 400 "Invalid API key format. OpenAI API keys should start with \x22sk-\x22.")
    else none

/-- parseFloat(duration) as the gateway computes it (undefined cannot reach
this point: the truthiness check precedes it). -/
def durNum (b : GBody) : Option Rat :=
  match b.duration with
  | some v => jsonParseFloat v
  | none => none

/-- The POST handler of src/unnamed/part_000 as a function of the environment
credential, the request body and the completion-service reply content (none
models a reply with no message content). The external call itself and its
transport errors are outside the embedding; every other branch of the handler
is represented, with thrown errors landing in the catch block as 500s. -/
def gatewayPOST (key : Option String) (b : GBody) (reply : Option String) : GatewayResult :=
  if !(jsTruthyOpt b.workoutType) || !(jsTruthyOpt b.duration) then
    .failure 400 "Workout type and duration are required"
  else
    match durNum b with
    | none => .failure 400 "Duration must be a positive number"
    | some d =>
      if d ≤ 0 then .failure 400 "Duration must be a positive number"
      else
        match keyError key with
        | some e => e
        | none =>
          match reply with
          | none => .failure 500 "No response from OpenAI"
          | some content =>
            match parseReply content with
            | none => .failure 500 "Could not parse OpenAI response"
            | some r => finishResult (b.workoutType.getD .jnull) d r

/-- A WorkoutEntry as addToHistory creates it from a success response: the
spread copies calories, explanation, workoutType and duration; the response
carries no reps key, so reps is undefined. id and timestamp come from the
clock and are parameters here. -/
def entryOfSuccess (nowId ts : String) : GatewayResult → Option WorkoutEntry
  | .success c ex wt d =>
    some ⟨nowId,
          (match wt with | .jstr s => s | v => jsDisplay v),
          some d, none, c,
          (match ex with | .jstr s => some s | _ => none),
          ts⟩
  | .failure _ _ => none

/-! ## Prompt assembly (lines 54-107 of the gateway) -/

/-- The weight clause: (weightInfo, weightForCalculation). A truthy weight that
parses to a positive number yields either the lbs form with the kg conversion
(factor 0.453592, toFixed(1)) or the plain kg form; anything else contributes
nothing. A falsy weightUnit defaults to kg; only the exact string "lbs"
selects the conversion. -/
def weightClause (weight wUnit : Option Json) : String × String :=
  match weight with
  | none => ("", "")
  | some wv =>
    if jsTruthy wv then
      match jsonParseFloat wv with
      | some n =>
        if 0 < n then
          match (if jsTruthyOpt wUnit then wUnit.getD .jnull else .jstr "kg") with
          | .jstr u =>
            if u == "lbs" then
              ("\nWeight: " ++ ratToJSString n ++ " lbs (" ++
                 jsToFixed1 (n * (453592 / 1000000 : Rat)) ++ " kg)",
               jsToFixed1 (n * (453592 / 1000000 : Rat)) ++ " kg")
            else ("\nWeight: " ++ ratToJSString n ++ " kg", ratToJSString n ++ " kg")
          | _ => ("\nWeight: " ++ ratToJSString n ++ " kg", ratToJSString n ++ " kg")
        else ("", "")
      | none => ("", "")
    else ("", "")

/-- The pace guidance block: the first /(\d+\.?\d*)/ match in the pace string
parsed as a number, with the intensity tier picked by the comparisons of the
source; an unmatched pace contributes nothing. -/
def paceGuidanceText (p : String) : String :=
  let csr := p.data.dropWhile (fun c => !(isDigitChar c))
  match csr with
  | [] => ""
  | _ =>
    let d1 := csr.takeWhile isDigitChar
    let r1 := csr.dropWhile isDigitChar
    let m : List Char :=
      match r1 with
      | '.' :: t => d1 ++ '.' :: t.takeWhile isDigitChar
      | _ => d1
    let pn := (jsParseFloat (String.mk m)).getD 0
    let pns := ratToJSString pn
    "\n\nIMPORTANT: The pace is " ++ pns ++ " min/km. \n- A pace of " ++ pns ++
      " min/km means the runner covers 1 kilometer in " ++ pns ++
      " minutes.\n- FASTER paces (LOWER min/km numbers) = HIGHER intensity = MORE calories burned per minute.\n- For example: 5 min/km burns MORE calories than 7 min/km for the same duration.\n- Calculate calories based on this intensity level. A " ++
      pns ++ " min/km pace is " ++
      (if pn ≤ 5 then "very fast/high intensity"
       else if pn ≤ 6 then "fast/moderate-high intensity"
       else if pn ≤ 7 then "moderate intensity"
       else "slow/moderate-low intensity") ++ "."

/-- The prompt template with every interpolation spelled out. ps is the pace
string when the pace participates (running workout, truthy pace), else none. -/
def promptText (wt : String) (d : Rat) (ps : Option String) (weight wUnit : Option Json) : String :=
  let paceInfo :=
    match ps with
    | some p => "\nRunning Pace: " ++ p ++ " (in min/km format)"
    | none => ""
  let wc := weightClause weight wUnit
  let paceGuidance :=
    match ps with
    | some p => paceGuidanceText p
    | none => ""
  "Calculate the approximate number of calories burned for the following workout:\n    \nWorkout Type: "
    ++ wt ++ "\nDuration: " ++ ratToJSString d ++ " minutes" ++ paceInfo ++ wc.1 ++ paceGuidance
    ++ "\n\nPlease provide:\n1. The estimated number of calories burned (as a single number, no text)\n2. A brief explanation (1-2 sentences) of how you calculated this\n\n"
    ++ (if (wc.2).data.isEmpty then
          "Assume an average adult (weighing approximately 70kg/154lbs) performing this activity."
        else
          "Use the person\x27s weight of " ++ wc.2 ++
            " to calculate calories. Heavier people burn more calories for the same activity.")
    ++ " "
    ++ (match ps with
        | some p =>
          "Use the running pace to determine intensity. Remember: LOWER min/km = FASTER pace = MORE calories per minute. A "
            ++ p ++ " pace should result in higher calorie burn than a slower pace for the same duration."
        | none => "Use moderate intensity unless otherwise specified.")
    ++ "\n\nFormat your response as JSON with this structure:\n\x7b\n  \x22calories\x22: <number>,\n  \x22explanation\x22: \x22<brief explanation>\x22\n\x7d"

/-- The outbound prompt for a request whose workoutType is the string wt and
whose parsed duration is d. When the pace participates it must be a string
(the code calls .match on it; a non-string would throw before any prompt
exists, modelled as none). -/
def promptFor (wt : String) (d : Rat) (pace weight wUnit : Option Json) : Option String :=
  if isRunningStr wt && jsTruthyOpt pace then
    match pace with
    | some (.jstr ps) => some (promptText wt d (some ps) weight wUnit)
    | _ => none
  else some (promptText wt d none weight wUnit)

/-! ## Concrete fixtures -/

/-- The end-to-end scenario of the spec: workout type "Push-Ups", reps 20,
everything else blank (unit selector at its default). -/
def c2State : FormState := ⟨"Push-Ups", "", "20", "", "", "lbs"⟩

/-- The body the spec expects for that scenario: workoutType and reps only. -/
def c2Body : ClientReq := ⟨"Push-Ups", none, some 20, none, none, none⟩

/-- A gateway body as the client sends it for that scenario: workoutType and
reps present, and no duration key. -/
def pushupGB : GBody := ⟨some (.jstr "Push-Ups"), none, some (.jnum 20), none, none, none⟩

/-- A body passing the gateway's request validation (a plain duration workout). -/
def stdBody : GBody := ⟨some (.jstr "Running"), some (.jnum 30), none, none, none, none⟩

/-- A body failing the gateway's request validation (nothing supplied). -/
def emptyBody : GBody := ⟨none, none, none, none, none, none⟩

/-- A duration-mode client submission (workout type "Yoga", 30 minutes). -/
def stYoga : FormState := ⟨"Yoga", "30", "", "", "", "lbs"⟩

/-! ## Helper lemmas -/

theorem ws_toLower (a : Char) (h : isWsChar a = true) : Char.toLower a = a := by
  simp only [isWsChar, Bool.or_eq_true, beq_iff_eq] at h
  rcases h with ((((h | h) | h) | h) | h) | h <;> subst h <;> decide

theorem strip_lower_dropWhile (l : List Char) :
    stripL (lowerL (l.dropWhile isWsChar)) = stripL (lowerL l) := by
  induction l with
  | nil => rfl
  | cons a t ih =>
    by_cases h : isWsChar a = true
    · rw [List.dropWhile_cons_of_pos h, ih]
      simp only [lowerL, List.map_cons, stripL, List.filter_cons, ws_toLower a h, h,
        Bool.true_or, Bool.not_true, Bool.false_eq_true, if_false]
    · rw [List.dropWhile_cons_of_neg (by simp [h])]

theorem strip_lower_reverse (l : List Char) :
    stripL (lowerL l.reverse) = (stripL (lowerL l)).reverse := by
  simp only [stripL, lowerL, List.map_reverse, List.filter_reverse]

theorem strip_lower_trim (l : List Char) :
    stripL (lowerL (jsTrimL l)) = stripL (lowerL l) := by
  unfold jsTrimL
  rw [strip_lower_reverse, strip_lower_dropWhile, strip_lower_reverse,
    List.reverse_reverse, strip_lower_dropWhile]

theorem pushupOr (n : String) :
    (n == "pushup" || n == "pushups" || jsStartsWith n "pushup") = jsStartsWith n "pushup" := by
  by_cases h1 : n = "pushup"
  · subst h1; decide
  · by_cases h2 : n = "pushups"
    · subst h2; decide
    · have b1 : (n == "pushup") = false := beq_eq_false_iff_ne.mpr h1
      have b2 : (n == "pushups") = false := beq_eq_false_iff_ne.mpr h2
      simp [b1, b2]

theorem pushup_iff_startsWith (s : String) :
    isPushUp s = jsStartsWith (normalizeWorkout s) "pushup" := by
  unfold isPushUp normalizeWorkout
  by_cases h0 : s = ""
  · subst h0; decide
  · have hb : (s == "") = false := beq_eq_false_iff_ne.mpr h0
    simp only [hb, Bool.false_eq_true, if_false]
    by_cases ht : jsTrimL s.data = []
    · simp [ht, jsStartsWith, prefixMatches]
    · have ht' : (jsTrimL s.data).isEmpty = false := by
        simpa [List.isEmpty_iff] using ht
      simp only [ht', Bool.false_eq_true, if_false]
      exact pushupOr _

theorem dropWhile_head_false (p : Char → Bool) (l : List Char) :
    ∀ a, (l.dropWhile p).head? = some a → p a = false := by
  induction l with
  | nil => intro a h; simp at h
  | cons b t ih =>
    intro a h
    by_cases hb : p b = true
    · rw [List.dropWhile_cons_of_pos hb] at h
      exact ih a h
    · rw [List.dropWhile_cons_of_neg (by simpa using hb)] at h
      simp only [List.head?_cons, Option.some.injEq] at h
      subst h
      simpa using hb

theorem trimL_nil_dropWhile (l : List Char) (h : jsTrimL l = []) :
    l.dropWhile isWsChar = [] := by
  unfold jsTrimL at h
  rw [List.reverse_eq_nil_iff, List.dropWhile_eq_nil_iff] at h
  cases hd : l.dropWhile isWsChar with
  | nil => rfl
  | cons a t =>
    have ha : isWsChar a = false := dropWhile_head_false isWsChar l a (by rw [hd]; rfl)
    have hmem : a ∈ (l.dropWhile isWsChar).reverse := by
      rw [hd]; simp
    have := h a hmem
    rw [ha] at this
    cases this

theorem parseFloat_none_of_trim_empty (s : String) (h : jsTrim s = "") :
    jsParseFloat s = none := by
  have hl : jsTrimL s.data = [] := congrArg String.data h
  have hd : s.data.dropWhile isWsChar = [] := trimL_nil_dropWhile s.data hl
  simp [jsParseFloat, jsParseFloatL, hd]

/-- Claim C4, counterexample: the push-up predicate is true on the non-empty
string "pushup jacks", whose normalisation is neither "pushup" nor "pushups",
so the predicate does not return false on every other non-empty string. -/
theorem c4_prefix_counterexample :
    isPushUp "pushup jacks" = true ∧ ¬ ("pushup jacks" = "") ∧
    ¬ (normalizeWorkout "pushup jacks" = "pushup") ∧
    ¬ (normalizeWorkout "pushup jacks" = "pushups") := by
  refine ⟨by decide, by decide, by decide, by decide⟩

/-- Claim C4, amended: the push-up predicate returns true exactly for the
strings whose normalisation (trimmed, lowercased, whitespace and hyphens
stripped) begins with "pushup" - this includes "pushup"/"pushups" and all
their hyphen/space variants, but also longer labels with that prefix - and in
particular it returns false on every empty or whitespace-only string. -/
theorem c4_pushup_predicate_amended (s : String) :
    isPushUp s = jsStartsWith (normalizeWorkout s) "pushup" ∧
    (jsTrim s = "" → isPushUp s = false) := by
  refine ⟨pushup_iff_startsWith s, fun h => ?_⟩
  have hl : jsTrimL s.data = [] := congrArg String.data h
  rw [pushup_iff_startsWith s]
  unfold normalizeWorkout
  rw [hl]
  decide

theorem clientSubmit_request_eq (st : FormState) (b : ClientReq)
    (h : clientSubmit st = .request b) : b = mkReq st (isPushUp st.workoutType) := by
  unfold clientSubmit at h
  repeat' split at h
  all_goals simp_all

/-- The claim's validity condition for the quantity field: in push-up mode the
reps field parses to a positive integer, otherwise the duration field parses
to a positive number. -/
def validQuantity (st : FormState) : Bool :=
  if isPushUp st.workoutType then
    match jsParseFloat st.reps with
    | some r => decide (0 < r) && (r.den == 1)
    | none => false
  else
    match jsParseFloat st.duration with
    | some d => decide (0 < d)
    | none => false

theorem submit_isRequest_eq (st : FormState) :
    (clientSubmit st).isRequest = (!(jsTrim st.workoutType == "") && validQuantity st) := by
  unfold clientSubmit validQuantity
  by_cases h1 : (jsTrim st.workoutType == "") = true
  · simp [h1, SubmitOutcome.isRequest]
  · have h1' : (jsTrim st.workoutType == "") = false := by simpa using h1
    simp only [h1', Bool.false_eq_true, if_false, Bool.not_false, Bool.true_and]
    by_cases hp : isPushUp st.workoutType = true
    · simp only [hp, if_true]
      by_cases hr : (jsTrim st.reps == "") = true
      · have hpf : jsParseFloat st.reps = none :=
          parseFloat_none_of_trim_empty st.reps (beq_iff_eq.mp hr)
        simp [hr, hpf, SubmitOutcome.isRequest]
      · have hr' : (jsTrim st.reps == "") = false := by simpa using hr
        simp only [hr', Bool.false_eq_true, if_false]
        cases hpf : jsParseFloat st.reps with
        | none => simp [SubmitOutcome.isRequest]
        | some r =>
          dsimp only
          by_cases hv : r ≤ 0 ∨ ¬ r.den = 1
          · rw [if_pos hv]
            simp only [SubmitOutcome.isRequest]
            rcases hv with hv | hv
            · simp [decide_eq_false (not_lt.mpr hv)]
            · simp [hv]
          · rw [if_neg hv]
            rw [not_or, not_le, not_not] at hv
            simp [SubmitOutcome.isRequest, hv.1, hv.2]
    · have hp' : isPushUp st.workoutType = false := by simpa using hp
      simp only [hp', Bool.false_eq_true, if_false]
      by_cases hd : (jsTrim st.duration == "") = true
      · have hpf : jsParseFloat st.duration = none :=
          parseFloat_none_of_trim_empty st.duration (beq_iff_eq.mp hd)
        simp [hd, hpf, SubmitOutcome.isRequest]
      · have hd' : (jsTrim st.duration == "") = false := by simpa using hd
        simp only [hd', Bool.false_eq_true, if_false]
        cases hpf : jsParseFloat st.duration with
        | none => simp [SubmitOutcome.isRequest]
        | some d =>
          dsimp only
          by_cases hv : d ≤ 0
          · rw [if_pos hv]
            simp [SubmitOutcome.isRequest, decide_eq_false (not_lt.mpr hv)]
          · rw [if_neg hv]
            simp [SubmitOutcome.isRequest, decide_eq_true (not_le.mp hv)]

/-- Claim C7: a network request is issued exactly when the trimmed workout
type is non-empty and the quantity field is valid for the active mode (positive
integer reps in push-up mode, positive duration otherwise); every validation
failure ends in a blocking alert and no request. -/
theorem c7_submit_request_iff_valid (st : FormState) :
    (clientSubmit st).isRequest = (!(jsTrim st.workoutType == "") && validQuantity st) ∧
    ((clientSubmit st).isRequest = false → ∃ m, clientSubmit st = .alerted m) := by
  refine ⟨submit_isRequest_eq st, fun h => ?_⟩
  cases hs : clientSubmit st with
  | alerted m => exact ⟨m, rfl⟩
  | request b => rw [hs] at h; simp [SubmitOutcome.isRequest] at h

/-- Claim C2: whenever the push-up predicate holds on a submission that issues
a request, the body carries no duration key and its reps value is parseInt of
the reps field; for the scenario "Push-Ups" with reps "20" the body is exactly
workoutType "Push-Ups" with reps 20 and nothing else. -/
theorem c2_pushup_request_body (st : FormState) (b : ClientReq)
    (h : clientSubmit st = .request b) (hp : isPushUp st.workoutType = true) :
    b.duration = none ∧ b.reps = jsParseInt st.reps ∧ (st = c2State → b = c2Body) := by
  have hb := clientSubmit_request_eq st b h
  subst hb
  rw [hp]
  refine ⟨by simp [mkReq], by simp [mkReq], fun hst => ?_⟩
  subst hst
  decide

theorem c2_pushup_request_body_witness :
    c2Body.duration = none ∧ c2Body.reps = jsParseInt c2State.reps ∧
    (c2State = c2State → c2Body = c2Body) :=
  c2_pushup_request_body c2State c2Body (by with_unfolding_all decide) (by with_unfolding_all decide)

/-- Claim C1: the gateway's validation rejects the push-up request the client
sends - workoutType "Push-Ups" and reps 20, with no duration key - with 400
"Workout type and duration are required", for any credential and any reply,
because the check requires a truthy duration regardless of reps. -/
theorem c1_reps_only_rejected (key : Option String) (reply : Option String) :
    (gatewayPOST key pushupGB reply).status = 400 ∧
    (gatewayPOST key pushupGB reply).errMsg = some "Workout type and duration are required" ∧
    pushupGB.duration = none ∧ pushupGB.reps = some (.jnum 20) := by
  exact ⟨rfl, rfl, rfl, rfl⟩

def e9a : WorkoutEntry := ⟨"7", "Yoga", some 30, none, 100, none, "t1"⟩

def e9b : WorkoutEntry := ⟨"7", "Run", some 20, none, 90, none, "t2"⟩

/-- Claim C9, counterexample: a two-entry history whose entries share the id
"7" (ids come from Date.now() and are not guaranteed distinct). Deleting by
that id from this list of more than one entry removes the persisted record
entirely instead of rewriting it with the remaining entries. -/
theorem c9_duplicate_id_counterexample :
    [e9a, e9b].length > 1 ∧
    (deleteWorkout true [e9a, e9b] (some [e9a, e9b]) "7").2 = none := by
  exact ⟨by with_unfolding_all decide, by with_unfolding_all decide⟩

/-- Claim C9, amended: behind the confirmation gate, deleting the only entry
of a singleton history (by its id) removes the persisted record entirely, and
deleting from any history rewrites the persisted record with the entries whose
id differs from the deleted id whenever at least one such entry remains; when
none remains (as with duplicate ids) the record is removed instead. -/
theorem c9_delete_persistence_amended (hist : List WorkoutEntry)
    (store : Option (List WorkoutEntry)) (wid : String) :
    (∀ e, hist = [e] → e.id = wid → (deleteWorkout true hist store wid).2 = none) ∧
    (hist.filter (fun w => w.id != wid) ≠ [] →
      (deleteWorkout true hist store wid).2 = some (hist.filter (fun w => w.id != wid))) := by
  constructor
  · intro e h1 h2
    subst h1
    simp [deleteWorkout, h2]
  · intro hne
    have hlen : 0 < (hist.filter (fun w => w.id != wid)).length :=
      List.length_pos.mpr hne
    simp [deleteWorkout, hlen]

/-- Claim C5, counterexample: a present credential that fails the "sk-" prefix
check is rejected with status 400 - the very status request-validation errors
use - so the configuration-error status is not distinct from it. -/
theorem c5_prefix_status_counterexample :
    jsStartsWith "bad-key" "sk-" = false ∧
    (gatewayPOST (some "bad-key") stdBody (some "x")).status = 400 ∧
    (gatewayPOST (some "sk-test") emptyBody (some "x")).status = 400 := by
  exact ⟨by with_unfolding_all decide, by with_unfolding_all decide, by with_unfolding_all decide⟩

/-- Claim C5, amended: for a request that passes validation, an absent or
empty credential is rejected with the 500 configuration error, which is
distinct from the 400 of request-validation errors; but a present, non-empty
credential failing the "sk-" prefix check is rejected with 400, the same
status request-validation errors use. -/
theorem c5_key_check_amended (b : GBody) (reply : Option String) (k : String) (d : Rat)
    (hw : jsTruthyOpt b.workoutType = true) (hd : jsTruthyOpt b.duration = true)
    (hdn : durNum b = some d) (hdp : 0 < d) :
    (gatewayPOST none b reply).status = 500 ∧
    (gatewayPOST (some "") b reply).status = 500 ∧
    (k ≠ "" → jsStartsWith k "sk-" = false → (gatewayPOST (some k) b reply).status = 400) := by
  have hno : ¬ d ≤ 0 := not_le.mpr hdp
  refine ⟨?_, ?_, fun hk hpref => ?_⟩
  · simp [gatewayPOST, hw, hd, hdn, hno, keyError, GatewayResult.status]
  · simp [gatewayPOST, hw, hd, hdn, hno, keyError, GatewayResult.status]
  · simp [gatewayPOST, hw, hd, hdn, hno, keyError, GatewayResult.status,
      beq_eq_false_iff_ne.mpr hk, hpref]

theorem c5_key_check_amended_witness :
    (gatewayPOST none stdBody (some "x")).status = 500 ∧
    (gatewayPOST (some "") stdBody (some "x")).status = 500 ∧
    ("bad-key" ≠ "" → jsStartsWith "bad-key" "sk-" = false →
      (gatewayPOST (some "bad-key") stdBody (some "x")).status = 400) :=
  c5_key_check_amended stdBody (some "x") "bad-key" 30 (by with_unfolding_all decide) (by with_unfolding_all decide) (by with_unfolding_all decide)
    (by with_unfolding_all decide)

def isNumZero : Option Json → Bool
  | some (.jnum q) => q == 0
  | _ => false

/-- Does a parsed reply carry a calories field equal to the number 0? -/
def caloriesFieldZero : Option Json → Bool
  | some j => isNumZero (jsonGetField j "calories")
  | none => false

theorem gatewayPOST_valid_reduce (b : GBody) (d : Rat) (reply : String)
    (hw : jsTruthyOpt b.workoutType = true) (hd : jsTruthyOpt b.duration = true)
    (hdn : durNum b = some d) (hdp : 0 < d) :
    gatewayPOST (some "sk-test") b (some reply) =
      (match parseReply reply with
       | none => .failure 500 "Could not parse OpenAI response"
       | some r => finishResult (b.workoutType.getD .jnull) d r) := by
  have hno : ¬ d ≤ 0 := not_le.mpr hdp
  have hk : keyError (some "sk-test") = none := rfl
  simp [gatewayPOST, hw, hd, hdn, hno, hk]

/-- Claim C10, counterexample: the reply body with calories 0.4 parses as
strict JSON, and the gateway returns a success response whose calories figure
is 0 - so the strict-JSON path can return success with calories 0. -/
theorem c10_round_to_zero_counterexample :
    (jsonParse "\x7b\x22calories\x22:0.4\x7d").isSome = true ∧
    (gatewayPOST (some "sk-test") stdBody (some "\x7b\x22calories\x22:0.4\x7d")).status = 200 ∧
    (gatewayPOST (some "sk-test") stdBody
      (some "\x7b\x22calories\x22:0.4\x7d")).caloriesOut = some 0 := by
  exact ⟨by with_unfolding_all decide, by with_unfolding_all decide,
    by with_unfolding_all decide⟩

/-- Claim C10, amended: a reply that parses as strict JSON with a calories
field equal to the number 0 is rejected as an invalid calorie calculation with
a 500 error; success responses with calories 0 remain possible from the
strict-JSON path when the calories field is a nonzero number rounding to 0. -/
theorem c10_zero_calories_rejected (content : String) (b : GBody) (d : Rat)
    (hw : jsTruthyOpt b.workoutType = true) (hd : jsTruthyOpt b.duration = true)
    (hdn : durNum b = some d) (hdp : 0 < d)
    (hz : caloriesFieldZero (jsonParse content) = true) :
    (gatewayPOST (some "sk-test") b (some content)).status = 500 ∧
    (gatewayPOST (some "sk-test") b (some content)).errMsg =
      some "Invalid calorie calculation from OpenAI" := by
  rw [gatewayPOST_valid_reduce b d content hw hd hdn hdp]
  cases hp : jsonParse content with
  | none => rw [hp] at hz; simp [caloriesFieldZero] at hz
  | some j =>
    rw [hp] at hz
    simp only [caloriesFieldZero] at hz
    cases hg : jsonGetField j "calories" with
    | none => rw [hg] at hz; simp [isNumZero] at hz
    | some v =>
      rw [hg] at hz
      cases v <;> simp [isNumZero] at hz
      case jnum q =>
        subst hz
        simp [parseReply, hp, finishResult, hg, jsTruthyOpt, jsTruthy,
          GatewayResult.status, GatewayResult.errMsg]

theorem c10_zero_calories_rejected_witness :
    (gatewayPOST (some "sk-test") stdBody (some "\x7b\x22calories\x22:0\x7d")).status = 500 ∧
    (gatewayPOST (some "sk-test") stdBody (some "\x7b\x22calories\x22:0\x7d")).errMsg =
      some "Invalid calorie calculation from OpenAI" :=
  c10_zero_calories_rejected "\x7b\x22calories\x22:0\x7d" stdBody 30
    (by with_unfolding_all decide) (by with_unfolding_all decide)
    (by with_unfolding_all decide) (by with_unfolding_all decide)
    (by with_unfolding_all decide)

/-- Claim C6, counterexample: the reply "between 100 and 480 calories" fails
strict JSON parsing and contains the digits "480", yet the fallback produces
calories 100 (the first decimal run), not 480. -/
theorem c6_contains_480_counterexample :
    (jsonParse "between 100 and 480 calories").isNone = true ∧
    strContains "between 100 and 480 calories" "480" = true ∧
    (gatewayPOST (some "sk-test") stdBody
      (some "between 100 and 480 calories")).caloriesOut = some 100 ∧
    ¬ ((gatewayPOST (some "sk-test") stdBody
      (some "between 100 and 480 calories")).caloriesOut = some 480) := by
  exact ⟨by with_unfolding_all decide, by with_unfolding_all decide,
    by with_unfolding_all decide, by with_unfolding_all decide⟩

/-- Claim C6, amended: a reply that fails strict JSON parsing and whose first
decimal run of digits is "480" yields calories 480 and an explanation equal to
the raw reply text (the fallback takes the first digit run, so "contains 480
anywhere" is not enough when an earlier digit run occurs). -/
theorem c6_fallback_first_run_480 (content : String) (b : GBody) (d : Rat)
    (hw : jsTruthyOpt b.workoutType = true) (hd : jsTruthyOpt b.duration = true)
    (hdn : durNum b = some d) (hdp : 0 < d)
    (hp : (jsonParse content).isNone = true)
    (hr : firstDigitRunStr content = some "480") :
    (gatewayPOST (some "sk-test") b (some content)).caloriesOut = some 480 ∧
    (gatewayPOST (some "sk-test") b (some content)).explanationOut = some content := by
  rw [gatewayPOST_valid_reduce b d content hw hd hdn hdp]
  have hpn : jsonParse content = none := Option.isNone_iff_eq_none.mp hp
  obtain ⟨ds, hds, hmk⟩ : ∃ ds, firstDigitRun content.data = some ds ∧ String.mk ds = "480" := by
    cases hfd : firstDigitRun content.data with
    | none => rw [firstDigitRunStr, hfd] at hr; simp at hr
    | some ds =>
      rw [firstDigitRunStr, hfd] at hr
      simp at hr
      exact ⟨ds, rfl, hr⟩
  have hds480 : ds = '4' :: '8' :: '0' :: [] := congrArg String.data hmk
  rw [hds480] at hds
  have hne : (content == "") = false := by
    by_cases hc : content = ""
    · subst hc
      rw [show ("" : String).data = [] from rfl] at hds
      simp [firstDigitRun] at hds
    · exact beq_eq_false_iff_ne.mpr hc
  have hnat : digitsToNat ('4' :: '8' :: '0' :: []) = 480 := by decide
  have hrnd : jsRound ((480 : Nat) : Rat) = 480 := by with_unfolding_all decide
  have hrnd2 : jsRound (480 : Rat) = 480 := by with_unfolding_all decide
  have hz480 : (((480 : Nat) : Rat) == 0) = false := by with_unfolding_all decide
  have hz2 : ((480 : Rat) == 0) = false := by with_unfolding_all decide
  simp [parseReply, hpn, hds, hnat, finishResult, jsTruthyOpt, jsTruthy, hz480, hz2,
    jsonToNumber, hrnd, hrnd2, explanationFrom, hne, GatewayResult.caloriesOut,
    GatewayResult.explanationOut]

theorem c6_fallback_first_run_480_witness :
    (gatewayPOST (some "sk-test") stdBody
      (some "About 480 calories total.")).caloriesOut = some 480 ∧
    (gatewayPOST (some "sk-test") stdBody
      (some "About 480 calories total.")).explanationOut = some "About 480 calories total." :=
  c6_fallback_first_run_480 "About 480 calories total." stdBody 30
    (by with_unfolding_all decide) (by with_unfolding_all decide)
    (by with_unfolding_all decide) (by with_unfolding_all decide)
    (by with_unfolding_all decide) (by with_unfolding_all decide)

theorem keyError_not_success (key : Option String) (r : GatewayResult)
    (h : keyError key = some r) : r.isSuccess = false := by
  unfold keyError at h
  repeat' split at h
  all_goals first
    | exact Option.noConfusion h
    | (injection h with h2; subst h2; rfl)

theorem normalizeWorkout_trim (s : String) :
    normalizeWorkout (jsTrim s) = normalizeWorkout s := by
  unfold normalizeWorkout jsTrim
  exact congrArg String.mk (strip_lower_trim (jsTrimL s.data))

theorem isPushUp_trim (s : String) : isPushUp (jsTrim s) = isPushUp s := by
  rw [pushup_iff_startsWith, pushup_iff_startsWith, normalizeWorkout_trim]

theorem gateway_success_inv (key : Option String) (gb : GBody) (reply : Option String)
    (c : Int) (ex wt : Json) (d : Rat)
    (h : gatewayPOST key gb reply = .success c ex wt d) :
    jsTruthyOpt gb.duration = true ∧ wt = gb.workoutType.getD .jnull := by
  unfold gatewayPOST at h
  by_cases h1 : (!(jsTruthyOpt gb.workoutType) || !(jsTruthyOpt gb.duration)) = true
  · rw [if_pos h1] at h; exact absurd h (by simp)
  · have h1' : jsTruthyOpt gb.duration = true := by
      rcases hx : jsTruthyOpt gb.workoutType <;> rcases hy : jsTruthyOpt gb.duration <;>
        simp_all
    refine ⟨h1', ?_⟩
    rw [if_neg h1] at h
    cases hdn : durNum gb with
    | none => rw [hdn] at h; exact absurd h (by simp)
    | some d2 =>
      rw [hdn] at h
      dsimp only at h
      by_cases hd2 : d2 ≤ 0
      · rw [if_pos hd2] at h; exact absurd h (by simp)
      · rw [if_neg hd2] at h
        cases hke : keyError key with
        | some e =>
          rw [hke] at h
          dsimp only at h
          have hnok := keyError_not_success key e hke
          rw [h] at hnok
          simp [GatewayResult.isSuccess] at hnok
        | none =>
          rw [hke] at h
          dsimp only at h
          cases reply with
          | none => exact absurd h (by simp)
          | some content =>
            dsimp only at h
            cases hpr : parseReply content with
            | none => rw [hpr] at h; exact absurd h (by simp)
            | some r =>
              rw [hpr] at h
              dsimp only at h
              unfold finishResult at h
              by_cases hc1 : (!(jsTruthyOpt r.calories)) = true
              · rw [if_pos hc1] at h; exact absurd h (by simp)
              · rw [if_neg hc1] at h
                cases hn : (match r.calories with | some v => jsonToNumber v | none => none) with
                | none => rw [hn] at h; exact absurd h (by simp)
                | some q =>
                  rw [hn] at h
                  dsimp only at h
                  simp only [GatewayResult.success.injEq] at h
                  exact h.2.2.1.symm

/-- Claim C3: a WorkoutEntry created from a successful gateway response to a
client submission has exactly one of duration or reps populated, with reps
populated exactly when the entry's workout type matches the push-up family
(vacuously here: the gateway requires a duration, so only duration-mode
submissions succeed, and those never match the push-up family). -/
theorem c3_entry_exactly_one_populated (key : Option String) (st : FormState)
    (reply : Option String) (b : ClientReq) (nowId ts : String) (e : WorkoutEntry)
    (h1 : clientSubmit st = .request b)
    (h2 : entryOfSuccess nowId ts (gatewayPOST key (toGBody b) reply) = some e) :
    (e.duration.isSome ≠ e.reps.isSome) ∧
    (e.reps.isSome = true ↔ isPushUp e.workoutType = true) := by
  cases hres : gatewayPOST key (toGBody b) reply with
  | failure s m => rw [hres] at h2; simp [entryOfSuccess] at h2
  | success c ex wt d =>
    rw [hres] at h2
    obtain ⟨hdur, hwt⟩ := gateway_success_inv key (toGBody b) reply c ex wt d hres
    have hb := clientSubmit_request_eq st b h1
    have hpu : isPushUp st.workoutType = false := by
      rcases hx : isPushUp st.workoutType with _ | _
      · rfl
      · rw [hb, hx] at hdur
        simp [toGBody, mkReq, jsTruthyOpt] at hdur
    have hwt' : wt = .jstr b.workoutType := by
      rw [hwt]; rfl
    subst hwt'
    simp only [entryOfSuccess, Option.some.injEq] at h2
    subst h2
    have hbw : b.workoutType = jsTrim st.workoutType := by rw [hb]; rfl
    constructor
    · simp
    · simp only [Option.isSome_none, Bool.false_eq_true, false_iff]
      simp only [hbw]
      rw [isPushUp_trim, hpu]
      simp

def yogaReq : ClientReq := ⟨"Yoga", some 30, none, none, none, none⟩

def yogaEntry : WorkoutEntry :=
  ⟨"1", "Yoga", some 30, none, 200,
   some "Calories calculated based on workout type and duration.", "t"⟩

theorem c3_entry_exactly_one_populated_witness :
    (yogaEntry.duration.isSome ≠ yogaEntry.reps.isSome) ∧
    (yogaEntry.reps.isSome = true ↔ isPushUp yogaEntry.workoutType = true) :=
  c3_entry_exactly_one_populated (some "sk-test") stYoga (some "\x7b\x22calories\x22:200\x7d")
    yogaReq "1" "t" yogaEntry (by with_unfolding_all decide) (by with_unfolding_all decide)

theorem truthy_of_parse_pos (v : Json) (q : Rat)
    (h : jsonParseFloat v = some q) (hq : 0 < q) : jsTruthy v = true := by
  cases v with
  | jnull => simp [jsonParseFloat] at h
  | jbool b => simp [jsonParseFloat] at h
  | jarr l => simp [jsonParseFloat] at h
  | jobj f => simp [jsonParseFloat] at h
  | jnum q2 =>
    simp only [jsonParseFloat, Option.some.injEq] at h
    subst h
    simp [jsTruthy, hq.ne']
  | jstr s =>
    by_cases hs : s = ""
    · subst hs
      simp [jsonParseFloat, jsParseFloat, jsParseFloatL] at h
    · simp [jsTruthy, hs]

theorem data_isEmpty_append_kg (a : String) : ((a ++ " kg").data).isEmpty = false := by
  rw [String.data_append]
  simp [List.isEmpty_iff]

def kgFigure (wq : Rat) : String := jsToFixed1 (wq * (453592 / 1000000 : Rat))

theorem weightClause_lbs (w : Json) (wq : Rat)
    (h : jsonParseFloat w = some wq) (hpos : 0 < wq) :
    weightClause (some w) (some (.jstr "lbs")) =
      ("\nWeight: " ++ ratToJSString wq ++ " lbs (" ++ kgFigure wq ++ " kg)",
       kgFigure wq ++ " kg") := by
  have htr : jsTruthy w = true := truthy_of_parse_pos w wq h hpos
  unfold weightClause kgFigure
  dsimp only
  rw [if_pos htr, h]
  dsimp only
  rw [if_pos hpos]
  rfl

theorem promptText_kg_embedded (wt : String) (d : Rat) (ps : Option String) (w : Json) (wq : Rat)
    (hw : jsonParseFloat w = some wq) (hpos : 0 < wq) :
    ∃ pre post, promptText wt d ps (some w) (some (.jstr "lbs")) =
      pre ++ kgFigure wq ++ post := by
  have hne := data_isEmpty_append_kg (kgFigure wq)
  refine
    ⟨"Calculate the approximate number of calories burned for the following workout:\n    \nWorkout Type: "
        ++ wt ++ "\nDuration: " ++ ratToJSString d ++ " minutes"
        ++ (match ps with
            | some p => "\nRunning Pace: " ++ p ++ " (in min/km format)"
            | none => "")
        ++ "\nWeight: " ++ ratToJSString wq ++ " lbs (",
      " kg)"
        ++ (match ps with
            | some p => paceGuidanceText p
            | none => "")
        ++ "\n\nPlease provide:\n1. The estimated number of calories burned (as a single number, no text)\n2. A brief explanation (1-2 sentences) of how you calculated this\n\n"
        ++ ("Use the person\x27s weight of " ++ (kgFigure wq ++ " kg")
            ++ " to calculate calories. Heavier people burn more calories for the same activity.")
        ++ " "
        ++ (match ps with
            | some p =>
              "Use the running pace to determine intensity. Remember: LOWER min/km = FASTER pace = MORE calories per minute. A "
                ++ p ++ " pace should result in higher calorie burn than a slower pace for the same duration."
            | none => "Use moderate intensity unless otherwise specified.")
        ++ "\n\nFormat your response as JSON with this structure:\n\x7b\n  \x22calories\x22: <number>,\n  \x22explanation\x22: \x22<brief explanation>\x22\n\x7d",
      ?_⟩
  unfold promptText
  rw [weightClause_lbs w wq hw hpos]
  dsimp only
  rw [if_neg (by rw [hne]; exact Bool.false_ne_true)]
  simp only [String.append_assoc]

/-- The pace values for which the handler reaches the prompt at all: either
the pace does not participate (not running, or falsy pace) or it is a string
(a truthy non-string pace would throw in the .match call before the prompt
exists). -/
def paceShapeOk (wt : String) (pace : Option Json) : Bool :=
  !(isRunningStr wt && jsTruthyOpt pace) ||
    (match pace with | some (.jstr _) => true | _ => false)

/-- Claim C8: for a request whose workout type is case-insensitively "run" or
"running" and which supplies a positive weight with unit "lbs", the outbound
prompt embeds the weight figure obtained by multiplying the pound value by
exactly 0.453592 and rounding to one decimal place (kgFigure = toFixed(1) of
wq * 453592/1000000). -/
theorem c8_lbs_to_kg_in_prompt (wt : String) (d : Rat) (pace : Option Json) (w : Json) (wq : Rat)
    (hr : isRunningStr wt = true)
    (hw : jsonParseFloat w = some wq) (hpos : 0 < wq)
    (hps : paceShapeOk wt pace = true) :
    ∃ pre post, promptFor wt d pace (some w) (some (.jstr "lbs")) =
      some (pre ++ kgFigure wq ++ post) := by
  unfold promptFor
  by_cases hc : (isRunningStr wt && jsTruthyOpt pace) = true
  · rw [if_pos hc]
    cases pace with
    | none => simp [jsTruthyOpt] at hc
    | some pv =>
      cases pv with
      | jstr ps =>
        dsimp only
        obtain ⟨pre, post, hp⟩ := promptText_kg_embedded wt d (some ps) w wq hw hpos
        exact ⟨pre, post, by rw [hp]⟩
      | jnull => unfold paceShapeOk at hps; rw [hc] at hps; simp at hps
      | jbool b => unfold paceShapeOk at hps; rw [hc] at hps; simp at hps
      | jnum q => unfold paceShapeOk at hps; rw [hc] at hps; simp at hps
      | jarr l => unfold paceShapeOk at hps; rw [hc] at hps; simp at hps
      | jobj f => unfold paceShapeOk at hps; rw [hc] at hps; simp at hps
  · rw [if_neg hc]
    obtain ⟨pre, post, hp⟩ := promptText_kg_embedded wt d none w wq hw hpos
    exact ⟨pre, post, by rw [hp]⟩

theorem c8_lbs_to_kg_in_prompt_witness :
    ∃ pre post, promptFor "running" 30 none (some (.jstr "150")) (some (.jstr "lbs")) =
      some (pre ++ kgFigure 150 ++ post) :=
  c8_lbs_to_kg_in_prompt "running" 30 none (.jstr "150") 150 (by with_unfolding_all decide)
    (by with_unfolding_all decide) (by with_unfolding_all decide) (by with_unfolding_all decide)
